import Mathlib

/-!
# healthcheck: a shallow embedding of `main.go`

The program reads five environment variables, runs either an HTTP status
check or a file-freshness check, and terminates with exit code 0 or 1.

Modelling conventions.

* Go `string` values are Lean `String`s; the Go `error` type is `Option String`
  (`none` is `nil`, `some msg` is an error whose `Error()` text is `msg`).
* Go `int` and `time.Duration` are 64-bit signed integers.  They are embedded as
  `Int`, and every arithmetic operation that can overflow is wrapped explicitly
  (`wrapInt64`).
* The outside world (environment, HTTP server, file system, clock) is a record of
  answers, `World`.  Every external operation the program performs is appended to
  a chronological trace of `Event`s, together with every line it prints.
* `os.Exit` stops the program: `Step.halt` short-circuits every later statement.
-/

namespace Healthcheck

/-! ## Machine integers and durations -/

/-- Smallest value of a 64-bit signed integer (`math.MinInt64`). -/
def minInt64 : Int := -9223372036854775808

/-- Largest value of a 64-bit signed integer (`math.MaxInt64`). -/
def maxInt64 : Int := 9223372036854775807

/-- Two's complement wrap-around of a mathematical integer into the 64-bit signed range. -/
def wrapInt64 (x : Int) : Int := (x + 9223372036854775808) % 18446744073709551616 - 9223372036854775808

/-- Constant `time.Second`: one second expressed in nanoseconds. -/
def second : Int := 1000000000

/-- Expression `time.Duration(n) * time.Second`: a 64-bit multiplication, which wraps on overflow. -/
def secondsToDuration (n : Int) : Int := wrapInt64 (n * second)

/-- Library function `time.Since(t)` for a time `t` without monotonic reading, as
`os.Stat` returns it: `time.Now().Sub(t)`, which saturates at the smallest and
largest `Duration`.  Instants are nanoseconds since the Unix epoch. -/
def timeSince (now t : Int) : Int :=
  if now - t > maxInt64 then maxInt64
  else if now - t < minInt64 then minInt64
  else now - t

/-! ## The library functions `strconv.Atoi` and `%d` formatting -/

/-- Value of a decimal digit byte, `none` for any other character. -/
def digitValue (c : Char) : Option Nat :=
  if 48 ≤ c.toNat ∧ c.toNat ≤ 57 then some (c.toNat - 48) else none

/-- Left-to-right accumulation `n = n*10 + d` over a run of digits; `none` at the first non-digit. -/
def parseDigits : List Char → Nat → Option Nat
  | [], acc => some acc
  | c :: cs, acc =>
    match digitValue c with
    | some d => parseDigits cs (acc * 10 + d)
    | none => none

/-- Unsigned part of `strconv.ParseInt(s, 10, 0)`: at least one digit, digits only. -/
def parseUnsigned (cs : List Char) : Option Nat :=
  match cs with
  | [] => none
  | _ :: _ => parseDigits cs 0

/-- Library function `strconv.Atoi` for a 64-bit `int`, which is `ParseInt(s, 10, 0)`:
an optional leading `+` or `-`, then one or more decimal digits, and the value must
lie in the `int` range.  `none` stands for a non-nil `error` (syntax or range). -/
def Atoi (s : String) : Option Int :=
  match s.data with
  | [] => none
  | '-' :: rest =>
    match parseUnsigned rest with
    | some un => if un > 9223372036854775808 then none else some (-(un : Int))
    | none => none
  | '+' :: rest =>
    match parseUnsigned rest with
    | some un => if un ≥ 9223372036854775808 then none else some (un : Int)
    | none => none
  | c :: rest =>
    match parseUnsigned (c :: rest) with
    | some un => if un ≥ 9223372036854775808 then none else some (un : Int)
    | none => none

/-- Verb `%d` of package `fmt` applied to an `int`: decimal digits, with a leading `-`
for a negative number. -/
def formatInt (n : Int) : String :=
  if n < 0 then "-" ++ Nat.repr n.natAbs else Nat.repr n.toNat

/-! ## The outside world and the trace of a run -/

/-- Answers of the environment a run depends on. -/
structure World where
  /-- Function `os.Getenv`: the value of a variable, `""` when it is unset. -/
  getenv : String → String
  /-- Outcome of `client.Get(uri)` under a given `Client.Timeout` (nanoseconds):
  the status code of the response, or the text of the transport error. -/
  httpGet : String → Int → Except String Int
  /-- Outcome of `os.Stat(path)`: the modification time (nanoseconds since the
  epoch), or the text of the error. -/
  stat : String → Except String Int
  /-- Reading of the wall clock taken by `time.Since` (nanoseconds since the epoch). -/
  now : Int

/-- Observable actions of a run, in the order they happen. -/
inductive Event where
  /-- Text written to standard output by `fmt.Println` or `fmt.Printf`. -/
  | print (text : String)
  /-- Entry into `uriHealthCheck` with its three arguments. -/
  | uriHealthCheckCall (uri : String) (timeout : Int) (expectedStatusCode : Int)
  /-- Entry into `fileHealthCheck` with its two arguments. -/
  | fileHealthCheckCall (filepath : String) (maxAgeSeconds : Int)
  /-- One HTTP GET issued by `client.Get`, with the client timeout in nanoseconds. -/
  | httpGet (uri : String) (clientTimeout : Int)
  /-- Release of the response body by the deferred `resp.Body.Close()`. -/
  | closeBody
  /-- One `os.Stat` call. -/
  | stat (path : String)
  /-- One clock reading and age comparison (`time.Since(...) > ...`). -/
  | ageComparison
  deriving DecidableEq, Repr

/-- Result of running a piece of the program from a given trace. -/
inductive Step (α : Type) where
  /-- Execution goes on with a value. -/
  | next (value : α) (trace : List Event)
  /-- The process was terminated by `os.Exit(code)`. -/
  | halt (code : Int) (trace : List Event)
  deriving DecidableEq, Repr

/-- Program fragment: a function from the trace so far to a `Step`. -/
def Prog (α : Type) : Type := List Event → Step α

/-- Sequencing: a halted program runs nothing further. -/
def Prog.bind {α β : Type} (m : Prog α) (f : α → Prog β) : Prog β :=
  fun tr =>
    match m tr with
    | Step.next a tr1 => f a tr1
    | Step.halt c tr1 => Step.halt c tr1

instance : Monad Prog where
  pure a := fun tr => Step.next a tr
  bind := Prog.bind

/-- Append one event to the trace. -/
def emit (e : Event) : Prog Unit := fun tr => Step.next () (tr ++ [e])

/-- Function `os.Exit`: terminate the process with the given code. -/
def osExit {α : Type} (code : Int) : Prog α := fun tr => Step.halt code tr

/-! ## The two checks -/

/-- Function `uriHealthCheck` of `main.go`. -/
def uriHealthCheck (w : World) (uri : String) (timeout : Int) (expectedStatusCode : Int) :
    Prog (Option String) := do
  emit (Event.uriHealthCheckCall uri timeout expectedStatusCode)
  let clientTimeout := secondsToDuration timeout
  emit (Event.httpGet uri clientTimeout)
  match w.httpGet uri clientTimeout with
  | Except.error err =>
    return some ("failed to get URI: " ++ err)
  | Except.ok statusCode =>
    if statusCode ≠ expectedStatusCode then
      emit Event.closeBody
      return some ("invalid status code: " ++ formatInt statusCode ++ ", expected "
        ++ formatInt expectedStatusCode)
    emit Event.closeBody
    return none

/-- Function `fileHealthCheck` of `main.go`. -/
def fileHealthCheck (w : World) (filepath : String) (maxAgeSeconds : Int) :
    Prog (Option String) := do
  emit (Event.fileHealthCheckCall filepath maxAgeSeconds)
  emit (Event.stat filepath)
  match w.stat filepath with
  | Except.error err =>
    return some ("failed to access the file: " ++ err)
  | Except.ok modTime =>
    emit Event.ageComparison
    if timeSince w.now modTime > secondsToDuration maxAgeSeconds then
      return some ("the file was not modified in the last " ++ formatInt maxAgeSeconds
        ++ " seconds")
    return none

/-! ## The entry point -/

/-- Function `main` of `main.go`. -/
def main (w : World) : Prog Unit := do
  let uri := w.getenv "HEALTHCHECK_URI"
  let file := w.getenv "HEALTHCHECK_FILE"
  if (uri = "" ∧ file = "") ∨ (uri ≠ "" ∧ file ≠ "") then
    emit (Event.print "Either HEALTHCHECK_URI or HEALTHCHECK_FILE must be set.\n")
    osExit 1
  let mut err : Option String := none
  if uri ≠ "" then
    emit (Event.print ("Running URI healthcheck: " ++ uri ++ "\n"))
    let timeoutStr := w.getenv "HEALTHCHECK_URI_TIMEOUT"
    let expectedStatusCodeStr := w.getenv "HEALTHCHECK_URI_STATUS_CODE"
    let mut timeout : Int := 10
    match Atoi timeoutStr with
    | some t =>
      timeout := t
      emit (Event.print ("Using custom timeout: " ++ formatInt timeout ++ "s\n"))
    | none =>
      emit (Event.print ("Using default timeout: " ++ formatInt timeout ++ "s\n"))
    let mut expectedStatusCode : Int := 200
    match Atoi expectedStatusCodeStr with
    | some code =>
      expectedStatusCode := code
      emit (Event.print ("Using custom status code: " ++ formatInt expectedStatusCode ++ "\n"))
    | none =>
      emit (Event.print ("Using default status code: " ++ formatInt expectedStatusCode ++ "\n"))
    err ← uriHealthCheck w uri timeout expectedStatusCode
    match err with
    | some e =>
      emit (Event.print ("URI healthcheck failed: " ++ e ++ "\n"))
      osExit 1
    | none => pure ()
  if file ≠ "" then
    emit (Event.print ("Running file healthcheck: " ++ file ++ "\n"))
    let maxAgeStr := w.getenv "HEALTHCHECK_FILE_MAX_AGE"
    let mut maxAge : Int := 60
    match Atoi maxAgeStr with
    | some m =>
      maxAge := m
      emit (Event.print ("Using custom file max age: " ++ formatInt maxAge ++ "s\n"))
    | none =>
      emit (Event.print ("Using default file max age: " ++ formatInt maxAge ++ "s\n"))
    err ← fileHealthCheck w file maxAge
    match err with
    | some e =>
      emit (Event.print ("File healthcheck failed: " ++ e ++ "\n"))
      osExit 1
    | none => pure ()

/-- Outcome of a whole process: its exit code and everything it did. -/
structure Run where
  /-- Exit code of the process. -/
  exitCode : Int
  /-- Chronological trace of the run. -/
  trace : List Event
  deriving DecidableEq, Repr

/-- Run the process in a world: falling off the end of `main` is exit code 0. -/
def run (w : World) : Run :=
  match main w [] with
  | Step.next _ tr => { exitCode := 0, trace := tr }
  | Step.halt c tr => { exitCode := c, trace := tr }

/-- Error returned by a check started from an empty trace (`none` is `nil`). -/
def checkResult (p : Prog (Option String)) : Option String :=
  match p [] with
  | Step.next r _ => r
  | Step.halt _ _ => none

/-- Trace produced by a check started from an empty trace. -/
def checkTrace (p : Prog (Option String)) : List Event :=
  match p [] with
  | Step.next _ tr => tr
  | Step.halt _ tr => tr

/-- Environment with the listed variables set and every other variable unset. -/
def envOf (vars : List (String × String)) (name : String) : String :=
  match vars.find? (fun kv => kv.1 == name) with
  | some kv => kv.2
  | none => ""

/-! ## Vocabulary of the statements -/

/-- Recognises an entry into `uriHealthCheck`. -/
def Event.isUriCall : Event → Bool
  | Event.uriHealthCheckCall _ _ _ => true
  | _ => false

/-- Recognises an entry into `fileHealthCheck`. -/
def Event.isFileCall : Event → Bool
  | Event.fileHealthCheckCall _ _ => true
  | _ => false

/-- Recognises an HTTP GET. -/
def Event.isHttpGet : Event → Bool
  | Event.httpGet _ _ => true
  | _ => false

/-- Recognises an `os.Stat` call. -/
def Event.isStat : Event → Bool
  | Event.stat _ => true
  | _ => false

/-- Text `needle` occurs somewhere inside text `hay`. -/
def Contains (needle hay : String) : Prop := needle.data <:+: hay.data

instance (needle hay : String) : Decidable (Contains needle hay) :=
  inferInstanceAs (Decidable (needle.data <:+: hay.data))

/-- Line announcing the timeout in use. -/
def timeoutLine (s : String) : Event :=
  match Atoi s with
  | some t => Event.print ("Using custom timeout: " ++ formatInt t ++ "s\n")
  | none => Event.print ("Using default timeout: " ++ formatInt 10 ++ "s\n")

/-- Line announcing the expected status code in use. -/
def statusCodeLine (s : String) : Event :=
  match Atoi s with
  | some c => Event.print ("Using custom status code: " ++ formatInt c ++ "\n")
  | none => Event.print ("Using default status code: " ++ formatInt 200 ++ "\n")

/-- Line announcing the maximal file age in use. -/
def maxAgeLine (s : String) : Event :=
  match Atoi s with
  | some m => Event.print ("Using custom file max age: " ++ formatInt m ++ "s\n")
  | none => Event.print ("Using default file max age: " ++ formatInt 60 ++ "s\n")

/-- Everything `main` prints before it calls `uriHealthCheck`. -/
def uriPreamble (w : World) : List Event :=
  [Event.print ("Running URI healthcheck: " ++ w.getenv "HEALTHCHECK_URI" ++ "\n"),
   timeoutLine (w.getenv "HEALTHCHECK_URI_TIMEOUT"),
   statusCodeLine (w.getenv "HEALTHCHECK_URI_STATUS_CODE")]

/-- Everything `main` prints before it calls `fileHealthCheck`. -/
def filePreamble (w : World) : List Event :=
  [Event.print ("Running file healthcheck: " ++ w.getenv "HEALTHCHECK_FILE" ++ "\n"),
   maxAgeLine (w.getenv "HEALTHCHECK_FILE_MAX_AGE")]

/-- The call of `uriHealthCheck` that `main` makes in URI mode. -/
def uriCheckOf (w : World) : Prog (Option String) :=
  uriHealthCheck w (w.getenv "HEALTHCHECK_URI")
    ((Atoi (w.getenv "HEALTHCHECK_URI_TIMEOUT")).getD 10)
    ((Atoi (w.getenv "HEALTHCHECK_URI_STATUS_CODE")).getD 200)

/-- The call of `fileHealthCheck` that `main` makes in file mode. -/
def fileCheckOf (w : World) : Prog (Option String) :=
  fileHealthCheck w (w.getenv "HEALTHCHECK_FILE")
    ((Atoi (w.getenv "HEALTHCHECK_FILE_MAX_AGE")).getD 60)

/-! ## Concrete worlds used as test inputs -/

/-- HTTP server that answers every GET with the given status code. -/
def serverReturning (code : Int) : String → Int → Except String Int :=
  fun _ _ => Except.ok code

/-- Network on which every GET fails at transport level. -/
def noServer : String → Int → Except String Int :=
  fun _ _ => Except.error "connection refused"

/-- File system in which every path was last modified at instant `t`. -/
def fileModifiedAt (t : Int) : String → Except String Int :=
  fun _ => Except.ok t

/-- File system in which no path exists. -/
def noFile : String → Except String Int :=
  fun _ => Except.error "no such file or directory"

/-- Both selectors set: a configuration error. -/
def bothSetWorld : World :=
  { getenv := envOf [("HEALTHCHECK_URI", "http://localhost/health"),
      ("HEALTHCHECK_FILE", "/tmp/alive"), ("HEALTHCHECK_URI_TIMEOUT", "3")],
    httpGet := serverReturning 200, stat := fileModifiedAt 0, now := 0 }

/-- URI mode with a zero timeout and an unparsable status code override; the server
answers 200. -/
def uriWorld : World :=
  { getenv := envOf [("HEALTHCHECK_URI", "http://localhost/health"),
      ("HEALTHCHECK_URI_TIMEOUT", "0"), ("HEALTHCHECK_URI_STATUS_CODE", "ok")],
    httpGet := serverReturning 200, stat := noFile, now := 0 }

/-- File mode with a negative maximal age; the file was modified 5 seconds before the
clock reading. -/
def fileWorld : World :=
  { getenv := envOf [("HEALTHCHECK_FILE", "/tmp/alive"), ("HEALTHCHECK_FILE_MAX_AGE", "-7")],
    httpGet := noServer, stat := fileModifiedAt 1000000000, now := 6000000000 }

/-- World whose server answers every GET with `code`; no variable is set. -/
def worldWithServer (code : Int) : World :=
  { getenv := envOf [], httpGet := serverReturning code, stat := noFile, now := 0 }

/-- File mode on a path that does not exist. -/
def missingFileWorld : World :=
  { getenv := envOf [("HEALTHCHECK_FILE", "/tmp/missing")],
    httpGet := noServer, stat := noFile, now := 0 }

/-- World whose files were all modified at instant `modTime`, read at instant `now`;
no variable is set. -/
def worldWithFile (modTime now : Int) : World :=
  { getenv := envOf [], httpGet := noServer, stat := fileModifiedAt modTime, now := now }

/-- File mode with the largest maximal age whose nanosecond count still fits, plus one;
the file was modified at the very instant of the clock reading. -/
def overflowWorld : World :=
  { getenv := envOf [("HEALTHCHECK_FILE", "/tmp/alive"),
      ("HEALTHCHECK_FILE_MAX_AGE", "9223372037")],
    httpGet := noServer, stat := fileModifiedAt 1700000000000000000,
    now := 1700000000000000000 }

/-- File mode, maximal age 60 by default, file modified at instant 0, clock read 30
seconds later. -/
def earlyRunWorld : World :=
  { getenv := envOf [("HEALTHCHECK_FILE", "/tmp/alive")],
    httpGet := noServer, stat := fileModifiedAt 0, now := 30000000000 }

/-- Same environment, same file and same server as `earlyRunWorld`, clock read 120
seconds after the modification. -/
def lateRunWorld : World :=
  { getenv := envOf [("HEALTHCHECK_FILE", "/tmp/alive")],
    httpGet := noServer, stat := fileModifiedAt 0, now := 120000000000 }

/-- Same observed state as `lateRunWorld` (selectors, numeric variables, stat of the
checked path, clock), with a different server and an unrelated variable set. -/
def lateRunOtherServerWorld : World :=
  { getenv := envOf [("HEALTHCHECK_FILE", "/tmp/alive"), ("HOME", "/root")],
    httpGet := serverReturning 200, stat := fileModifiedAt 0, now := 120000000000 }

/-! ## Stepping lemmas -/

theorem uriHealthCheck_step (w : World) (uri : String) (t c : Int) (tr : List Event) :
    uriHealthCheck w uri t c tr =
      Step.next (checkResult (uriHealthCheck w uri t c))
        (tr ++ checkTrace (uriHealthCheck w uri t c)) := by
  unfold checkResult checkTrace uriHealthCheck
  simp only [bind, Prog.bind, emit, pure]
  cases h : w.httpGet uri (secondsToDuration t) with
  | error e => simp
  | ok s => by_cases hs : s = c <;> simp [hs, Prog.bind, emit]

theorem fileHealthCheck_step (w : World) (path : String) (m : Int) (tr : List Event) :
    fileHealthCheck w path m tr =
      Step.next (checkResult (fileHealthCheck w path m))
        (tr ++ checkTrace (fileHealthCheck w path m)) := by
  unfold checkResult checkTrace fileHealthCheck
  simp only [bind, Prog.bind, emit, pure]
  cases h : w.stat path with
  | error e => simp
  | ok s =>
    by_cases hs : timeSince w.now s > secondsToDuration m <;> simp [hs, Prog.bind, emit]

theorem uriHealthCheck_result (w : World) (uri : String) (t c : Int) :
    checkResult (uriHealthCheck w uri t c) =
      match w.httpGet uri (secondsToDuration t) with
      | Except.error err => some ("failed to get URI: " ++ err)
      | Except.ok s =>
        if s ≠ c then
          some ("invalid status code: " ++ formatInt s ++ ", expected " ++ formatInt c)
        else none := by
  unfold checkResult uriHealthCheck
  simp only [bind, Prog.bind, emit, pure]
  cases h : w.httpGet uri (secondsToDuration t) with
  | error e => simp
  | ok s => by_cases hs : s = c <;> simp [hs, Prog.bind, emit]

theorem uriHealthCheck_trace (w : World) (uri : String) (t c : Int) :
    checkTrace (uriHealthCheck w uri t c) =
      match w.httpGet uri (secondsToDuration t) with
      | Except.error _ =>
        [Event.uriHealthCheckCall uri t c, Event.httpGet uri (secondsToDuration t)]
      | Except.ok _ =>
        [Event.uriHealthCheckCall uri t c, Event.httpGet uri (secondsToDuration t),
         Event.closeBody] := by
  unfold checkTrace uriHealthCheck
  simp only [bind, Prog.bind, emit, pure]
  cases h : w.httpGet uri (secondsToDuration t) with
  | error e => simp
  | ok s => by_cases hs : s = c <;> simp [hs, Prog.bind, emit]

theorem fileHealthCheck_result (w : World) (path : String) (m : Int) :
    checkResult (fileHealthCheck w path m) =
      match w.stat path with
      | Except.error err => some ("failed to access the file: " ++ err)
      | Except.ok modTime =>
        if timeSince w.now modTime > secondsToDuration m then
          some ("the file was not modified in the last " ++ formatInt m ++ " seconds")
        else none := by
  unfold checkResult fileHealthCheck
  simp only [bind, Prog.bind, emit, pure]
  cases h : w.stat path with
  | error e => simp
  | ok s =>
    by_cases hs : timeSince w.now s > secondsToDuration m <;> simp [hs, Prog.bind, emit]

theorem fileHealthCheck_trace (w : World) (path : String) (m : Int) :
    checkTrace (fileHealthCheck w path m) =
      match w.stat path with
      | Except.error _ => [Event.fileHealthCheckCall path m, Event.stat path]
      | Except.ok _ =>
        [Event.fileHealthCheckCall path m, Event.stat path, Event.ageComparison] := by
  unfold checkTrace fileHealthCheck
  simp only [bind, Prog.bind, emit, pure]
  cases h : w.stat path with
  | error e => simp
  | ok s =>
    by_cases hs : timeSince w.now s > secondsToDuration m <;> simp [hs, Prog.bind, emit]

theorem main_config_error (w : World) (tr : List Event)
    (h : (w.getenv "HEALTHCHECK_URI" = "" ∧ w.getenv "HEALTHCHECK_FILE" = "") ∨
         (w.getenv "HEALTHCHECK_URI" ≠ "" ∧ w.getenv "HEALTHCHECK_FILE" ≠ "")) :
    main w tr = Step.halt 1
      (tr ++ [Event.print "Either HEALTHCHECK_URI or HEALTHCHECK_FILE must be set.\n"]) := by
  unfold main
  simp only [bind, Prog.bind, emit, osExit, pure]
  rw [if_pos h]
  rfl

theorem main_uri_mode (w : World) (tr : List Event)
    (hu : w.getenv "HEALTHCHECK_URI" ≠ "") (hf : w.getenv "HEALTHCHECK_FILE" = "") :
    main w tr =
      match checkResult (uriCheckOf w) with
      | none => Step.next () (tr ++ uriPreamble w ++ checkTrace (uriCheckOf w))
      | some e => Step.halt 1 (tr ++ uriPreamble w ++ checkTrace (uriCheckOf w)
          ++ [Event.print ("URI healthcheck failed: " ++ e ++ "\n")]) := by
  unfold main
  simp only [bind, Prog.bind, emit, osExit, pure]
  have h : ¬ ((w.getenv "HEALTHCHECK_URI" = "" ∧ w.getenv "HEALTHCHECK_FILE" = "") ∨
      (w.getenv "HEALTHCHECK_URI" ≠ "" ∧ w.getenv "HEALTHCHECK_FILE" ≠ "")) := by
    simp [hu, hf]
  rw [if_neg h]
  simp only [hu, hf, uriCheckOf, uriPreamble, timeoutLine, statusCodeLine]
  cases h1 : Atoi (w.getenv "HEALTHCHECK_URI_TIMEOUT") <;>
  cases h2 : Atoi (w.getenv "HEALTHCHECK_URI_STATUS_CODE") <;>
  simp only [Option.getD] <;>
  cases h3 : checkResult (uriHealthCheck w (w.getenv "HEALTHCHECK_URI") _ _) <;>
  simp [hu, Prog.bind, emit, osExit, uriHealthCheck_step, h3]

theorem main_file_mode (w : World) (tr : List Event)
    (hu : w.getenv "HEALTHCHECK_URI" = "") (hf : w.getenv "HEALTHCHECK_FILE" ≠ "") :
    main w tr =
      match checkResult (fileCheckOf w) with
      | none => Step.next () (tr ++ filePreamble w ++ checkTrace (fileCheckOf w))
      | some e => Step.halt 1 (tr ++ filePreamble w ++ checkTrace (fileCheckOf w)
          ++ [Event.print ("File healthcheck failed: " ++ e ++ "\n")]) := by
  unfold main
  simp only [bind, Prog.bind, emit, osExit, pure]
  have h : ¬ ((w.getenv "HEALTHCHECK_URI" = "" ∧ w.getenv "HEALTHCHECK_FILE" = "") ∨
      (w.getenv "HEALTHCHECK_URI" ≠ "" ∧ w.getenv "HEALTHCHECK_FILE" ≠ "")) := by
    simp [hu, hf]
  rw [if_neg h]
  simp only [hu, hf, fileCheckOf, filePreamble, maxAgeLine]
  cases h1 : Atoi (w.getenv "HEALTHCHECK_FILE_MAX_AGE") <;>
  simp only [Option.getD] <;>
  cases h3 : checkResult (fileHealthCheck w (w.getenv "HEALTHCHECK_FILE") _) <;>
  simp [hf, Prog.bind, emit, osExit, fileHealthCheck_step, h3]

theorem run_config_error (w : World)
    (h : (w.getenv "HEALTHCHECK_URI" = "" ∧ w.getenv "HEALTHCHECK_FILE" = "") ∨
         (w.getenv "HEALTHCHECK_URI" ≠ "" ∧ w.getenv "HEALTHCHECK_FILE" ≠ "")) :
    run w = { exitCode := 1,
              trace := [Event.print "Either HEALTHCHECK_URI or HEALTHCHECK_FILE must be set.\n"] } := by
  unfold run
  rw [main_config_error w [] h]
  simp

theorem run_uri_mode (w : World)
    (hu : w.getenv "HEALTHCHECK_URI" ≠ "") (hf : w.getenv "HEALTHCHECK_FILE" = "") :
    run w =
      match checkResult (uriCheckOf w) with
      | none => { exitCode := 0, trace := uriPreamble w ++ checkTrace (uriCheckOf w) }
      | some e => { exitCode := 1, trace := uriPreamble w ++ checkTrace (uriCheckOf w)
          ++ [Event.print ("URI healthcheck failed: " ++ e ++ "\n")] } := by
  unfold run
  rw [main_uri_mode w [] hu hf]
  cases checkResult (uriCheckOf w) <;> simp

theorem run_file_mode (w : World)
    (hu : w.getenv "HEALTHCHECK_URI" = "") (hf : w.getenv "HEALTHCHECK_FILE" ≠ "") :
    run w =
      match checkResult (fileCheckOf w) with
      | none => { exitCode := 0, trace := filePreamble w ++ checkTrace (fileCheckOf w) }
      | some e => { exitCode := 1, trace := filePreamble w ++ checkTrace (fileCheckOf w)
          ++ [Event.print ("File healthcheck failed: " ++ e ++ "\n")] } := by
  unfold run
  rw [main_file_mode w [] hu hf]
  cases checkResult (fileCheckOf w) <;> simp

theorem run_trace_cases (w : World) :
    ((w.getenv "HEALTHCHECK_URI" = "" ∧ w.getenv "HEALTHCHECK_FILE" = "") ∨
      (w.getenv "HEALTHCHECK_URI" ≠ "" ∧ w.getenv "HEALTHCHECK_FILE" ≠ "")) ∨
    (w.getenv "HEALTHCHECK_URI" ≠ "" ∧ w.getenv "HEALTHCHECK_FILE" = "") ∨
    (w.getenv "HEALTHCHECK_URI" = "" ∧ w.getenv "HEALTHCHECK_FILE" ≠ "") := by
  by_cases hu : w.getenv "HEALTHCHECK_URI" = "" <;>
  by_cases hf : w.getenv "HEALTHCHECK_FILE" = "" <;> simp [hu, hf]

theorem uriPreamble_filter (w : World) (p : Event → Bool) (hp : ∀ t, p (Event.print t) = false) :
    (uriPreamble w).filter p = [] := by
  unfold uriPreamble timeoutLine statusCodeLine
  cases Atoi (w.getenv "HEALTHCHECK_URI_TIMEOUT") <;>
  cases Atoi (w.getenv "HEALTHCHECK_URI_STATUS_CODE") <;> simp [hp]

theorem filePreamble_filter (w : World) (p : Event → Bool) (hp : ∀ t, p (Event.print t) = false) :
    (filePreamble w).filter p = [] := by
  unfold filePreamble maxAgeLine
  cases Atoi (w.getenv "HEALTHCHECK_FILE_MAX_AGE") <;> simp [hp]

theorem run_uri_mode_filter (w : World) (p : Event → Bool) (hp : ∀ t, p (Event.print t) = false)
    (hu : w.getenv "HEALTHCHECK_URI" ≠ "") (hf : w.getenv "HEALTHCHECK_FILE" = "") :
    (run w).trace.filter p = (checkTrace (uriCheckOf w)).filter p := by
  rw [run_uri_mode w hu hf]
  cases checkResult (uriCheckOf w) <;> simp [uriPreamble_filter w p hp, hp]

theorem run_file_mode_filter (w : World) (p : Event → Bool) (hp : ∀ t, p (Event.print t) = false)
    (hu : w.getenv "HEALTHCHECK_URI" = "") (hf : w.getenv "HEALTHCHECK_FILE" ≠ "") :
    (run w).trace.filter p = (checkTrace (fileCheckOf w)).filter p := by
  rw [run_file_mode w hu hf]
  cases checkResult (fileCheckOf w) <;> simp [filePreamble_filter w p hp, hp]

theorem run_uri_mode_exit (w : World)
    (hu : w.getenv "HEALTHCHECK_URI" ≠ "") (hf : w.getenv "HEALTHCHECK_FILE" = "") :
    ((run w).exitCode = 0 ↔ checkResult (uriCheckOf w) = none) ∧
    ((run w).exitCode = 0 ∨ (run w).exitCode = 1) := by
  rw [run_uri_mode w hu hf]
  cases checkResult (uriCheckOf w) <;> simp

theorem run_file_mode_exit (w : World)
    (hu : w.getenv "HEALTHCHECK_URI" = "") (hf : w.getenv "HEALTHCHECK_FILE" ≠ "") :
    ((run w).exitCode = 0 ↔ checkResult (fileCheckOf w) = none) ∧
    ((run w).exitCode = 0 ∨ (run w).exitCode = 1) := by
  rw [run_file_mode w hu hf]
  cases checkResult (fileCheckOf w) <;> simp

/-! ## Text containment -/

theorem contains_middle (p a q : String) : Contains a (p ++ a ++ q) := by
  unfold Contains
  rw [String.data_append, String.data_append]
  exact ⟨p.data, q.data, rfl⟩

theorem contains_end (p a : String) : Contains a (p ++ a) := by
  unfold Contains
  rw [String.data_append]
  exact ⟨p.data, [], by simp⟩

theorem contains_append_right {a h : String} (q : String) (hc : Contains a h) :
    Contains a (h ++ q) := by
  unfold Contains at *
  rw [String.data_append]
  obtain ⟨s, t, hst⟩ := hc
  exact ⟨s, t ++ q.data, by rw [← hst]; simp⟩

/-! ## Durations without overflow -/

theorem wrapInt64_of_inRange (x : Int) (hlo : minInt64 ≤ x) (hhi : x ≤ maxInt64) :
    wrapInt64 x = x := by
  unfold wrapInt64
  unfold minInt64 at hlo
  unfold maxInt64 at hhi
  omega

theorem secondsToDuration_of_inRange (n : Int) (hlo : -9223372036 ≤ n) (hhi : n ≤ 9223372036) :
    secondsToDuration n = n * second := by
  unfold secondsToDuration
  apply wrapInt64_of_inRange <;> simp only [second, minInt64, maxInt64] <;> omega

/-! ## Configuration errors -/

/-- C1: whenever `HEALTHCHECK_URI` and `HEALTHCHECK_FILE` are both empty or both
non-empty, the process exits with code 1 and its whole trace is the one printed
configuration message: no call of a check, no HTTP GET and no stat, for every value
of the three numeric variables. -/
theorem config_error_exits_one_without_check (w : World)
    (h : (w.getenv "HEALTHCHECK_URI" = "" ∧ w.getenv "HEALTHCHECK_FILE" = "") ∨
         (w.getenv "HEALTHCHECK_URI" ≠ "" ∧ w.getenv "HEALTHCHECK_FILE" ≠ "")) :
    (run w).exitCode = 1 ∧
    (run w).trace = [Event.print "Either HEALTHCHECK_URI or HEALTHCHECK_FILE must be set.\n"] ∧
    (run w).trace.countP Event.isUriCall = 0 ∧
    (run w).trace.countP Event.isHttpGet = 0 ∧
    (run w).trace.countP Event.isFileCall = 0 ∧
    (run w).trace.countP Event.isStat = 0 := by
  rw [run_config_error w h]
  simp [Event.isUriCall, Event.isHttpGet, Event.isFileCall, Event.isStat]

/-- Witness of C1: with both selectors set the run exits 1 after printing one line. -/
theorem config_error_exits_one_without_check_witness :
    ((bothSetWorld.getenv "HEALTHCHECK_URI" = "" ∧ bothSetWorld.getenv "HEALTHCHECK_FILE" = "") ∨
      (bothSetWorld.getenv "HEALTHCHECK_URI" ≠ "" ∧
        bothSetWorld.getenv "HEALTHCHECK_FILE" ≠ "")) ∧
    (run bothSetWorld).exitCode = 1 ∧
    (run bothSetWorld).trace.countP Event.isHttpGet = 0 ∧
    (run bothSetWorld).trace.countP Event.isStat = 0 :=
  have h : (bothSetWorld.getenv "HEALTHCHECK_URI" = "" ∧
        bothSetWorld.getenv "HEALTHCHECK_FILE" = "") ∨
      (bothSetWorld.getenv "HEALTHCHECK_URI" ≠ "" ∧
        bothSetWorld.getenv "HEALTHCHECK_FILE" ≠ "") := by decide
  have t := config_error_exits_one_without_check bothSetWorld h
  ⟨h, t.1, t.2.2.2.1, t.2.2.2.2.2⟩

/-! ## Exit code -/

/-- C2: the exit code is 0 exactly when one selector is non-empty, the other is empty,
and the check selected by it returns no error; the exit code is never anything but 0
or 1, so every other case exits with code 1. -/
theorem exit_code_zero_iff_selected_check_passes (w : World) :
    ((run w).exitCode = 0 ↔
      (w.getenv "HEALTHCHECK_URI" ≠ "" ∧ w.getenv "HEALTHCHECK_FILE" = "" ∧
        checkResult (uriHealthCheck w (w.getenv "HEALTHCHECK_URI")
          ((Atoi (w.getenv "HEALTHCHECK_URI_TIMEOUT")).getD 10)
          ((Atoi (w.getenv "HEALTHCHECK_URI_STATUS_CODE")).getD 200)) = none) ∨
      (w.getenv "HEALTHCHECK_URI" = "" ∧ w.getenv "HEALTHCHECK_FILE" ≠ "" ∧
        checkResult (fileHealthCheck w (w.getenv "HEALTHCHECK_FILE")
          ((Atoi (w.getenv "HEALTHCHECK_FILE_MAX_AGE")).getD 60)) = none)) ∧
    ((run w).exitCode = 0 ∨ (run w).exitCode = 1) := by
  rcases run_trace_cases w with h | ⟨hu, hf⟩ | ⟨hu, hf⟩
  · rw [run_config_error w h]
    rcases h with ⟨hu, hf⟩ | ⟨hu, hf⟩ <;> simp [hu, hf]
  · have := run_uri_mode_exit w hu hf
    simp only [uriCheckOf] at this
    refine ⟨?_, this.2⟩
    simp [hu, hf, this.1]
  · have := run_file_mode_exit w hu hf
    simp only [fileCheckOf] at this
    refine ⟨?_, this.2⟩
    simp [hu, hf, this.1]

/-! ## Numeric overrides -/

/-- C3: in URI mode the single call of `uriHealthCheck` receives, as timeout and as
expected status code, the integer `strconv.Atoi` parses from the override, and 10 or
200 when `Atoi` fails; in file mode the single call of `fileHealthCheck` receives the
parsed maximal age, or 60.  The check is run either way, and the exit
code depends on the result of that check alone.  The empty string, a word, a decimal
fraction and a number beyond the 64-bit range do not parse; zero and negative numbers
do, and are passed on as they are. -/
theorem numeric_overrides_effective (w : World) :
    (w.getenv "HEALTHCHECK_URI" ≠ "" → w.getenv "HEALTHCHECK_FILE" = "" →
      (run w).trace.filter Event.isUriCall =
        [Event.uriHealthCheckCall (w.getenv "HEALTHCHECK_URI")
          ((Atoi (w.getenv "HEALTHCHECK_URI_TIMEOUT")).getD 10)
          ((Atoi (w.getenv "HEALTHCHECK_URI_STATUS_CODE")).getD 200)] ∧
      ((run w).exitCode = 0 ↔
        checkResult (uriHealthCheck w (w.getenv "HEALTHCHECK_URI")
          ((Atoi (w.getenv "HEALTHCHECK_URI_TIMEOUT")).getD 10)
          ((Atoi (w.getenv "HEALTHCHECK_URI_STATUS_CODE")).getD 200)) = none)) ∧
    (w.getenv "HEALTHCHECK_URI" = "" → w.getenv "HEALTHCHECK_FILE" ≠ "" →
      (run w).trace.filter Event.isFileCall =
        [Event.fileHealthCheckCall (w.getenv "HEALTHCHECK_FILE")
          ((Atoi (w.getenv "HEALTHCHECK_FILE_MAX_AGE")).getD 60)] ∧
      ((run w).exitCode = 0 ↔
        checkResult (fileHealthCheck w (w.getenv "HEALTHCHECK_FILE")
          ((Atoi (w.getenv "HEALTHCHECK_FILE_MAX_AGE")).getD 60)) = none)) ∧
    Atoi "" = none ∧ Atoi "ok" = none ∧ Atoi "1.5" = none ∧
    Atoi "9223372036854775808" = none ∧
    Atoi "0" = some 0 ∧ Atoi "-7" = some (-7) ∧ Atoi "30" = some 30 := by
  refine ⟨?_, ?_, by decide, by decide, by decide, by decide, by decide, by decide,
    by decide⟩
  · intro hu hf
    refine ⟨?_, (run_uri_mode_exit w hu hf).1⟩
    rw [run_uri_mode_filter w Event.isUriCall (fun _ => rfl) hu hf, uriCheckOf,
      uriHealthCheck_trace]
    cases w.httpGet _ _ <;> simp [Event.isUriCall]
  · intro hu hf
    refine ⟨?_, (run_file_mode_exit w hu hf).1⟩
    rw [run_file_mode_filter w Event.isFileCall (fun _ => rfl) hu hf, fileCheckOf,
      fileHealthCheck_trace]
    cases w.stat _ <;> simp [Event.isFileCall]

/-- Witness of C3: a zero timeout and a negative maximal age are passed on unchanged,
an unparsable status code becomes 200. -/
theorem numeric_overrides_effective_witness :
    (run uriWorld).trace.filter Event.isUriCall =
      [Event.uriHealthCheckCall "http://localhost/health" 0 200] ∧
    (run fileWorld).trace.filter Event.isFileCall =
      [Event.fileHealthCheckCall "/tmp/alive" (-7)] :=
  ⟨((numeric_overrides_effective uriWorld).1 (by decide) (by decide)).1,
   ((numeric_overrides_effective fileWorld).2.1 (by decide) (by decide)).1⟩

/-! ## Age comparison of the file check -/

/-- As long as `maxAgeSeconds * 10^9` fits in 64 bits, a file whose stat succeeds is
reported stale exactly when the time elapsed since its modification strictly exceeds
`maxAgeSeconds` seconds, and passes otherwise. -/
theorem fileHealthCheck_stale_iff_without_overflow (w : World) (path : String)
    (maxAgeSeconds modTime : Int) (hstat : w.stat path = Except.ok modTime)
    (h0 : 0 ≤ maxAgeSeconds) (hmax : maxAgeSeconds ≤ 9223372036) :
    (checkResult (fileHealthCheck w path maxAgeSeconds) =
        some ("the file was not modified in the last " ++ formatInt maxAgeSeconds ++ " seconds")
      ↔ w.now - modTime > maxAgeSeconds * second) ∧
    (checkResult (fileHealthCheck w path maxAgeSeconds) = none
      ↔ w.now - modTime ≤ maxAgeSeconds * second) := by
  rw [fileHealthCheck_result, hstat, secondsToDuration_of_inRange _ (by omega) hmax]
  have hiff : timeSince w.now modTime > maxAgeSeconds * second ↔
      w.now - modTime > maxAgeSeconds * second := by
    unfold timeSince
    simp only [second, maxInt64, minInt64]
    split_ifs <;> omega
  by_cases hs : timeSince w.now modTime > maxAgeSeconds * second
  · have := hiff.mp hs
    simp only [hs, if_true]
    constructor
    · simp [this]
    · simp; omega
  · have := mt hiff.mpr hs
    simp only [hs, if_false]
    constructor
    · simp; omega
    · simp; omega

/-- Witness of the overflow-free age comparison: exactly 60 seconds old passes a
maximal age of 60. -/
theorem fileHealthCheck_stale_iff_without_overflow_witness :
    checkResult (fileHealthCheck (worldWithFile 0 60000000000) "/tmp/alive" 60) = none :=
  (fileHealthCheck_stale_iff_without_overflow (worldWithFile 0 60000000000) "/tmp/alive" 60 0
    rfl (by decide) (by decide)).2.mpr (by decide)

/-- C4, failing input: the override `9223372037` parses, its nanosecond count wraps
to a negative duration, and a file modified at the very instant of the clock reading
(elapsed time 0, not more than 9223372037 seconds) is reported stale; the run exits 1. -/
theorem fileHealthCheck_overflow_reports_fresh_file_stale :
    Atoi "9223372037" = some 9223372037 ∧
    overflowWorld.stat "/tmp/alive" = Except.ok overflowWorld.now ∧
    ¬ (overflowWorld.now - overflowWorld.now > 9223372037 * second) ∧
    secondsToDuration 9223372037 = -9223372036709551616 ∧
    checkResult (fileHealthCheck overflowWorld "/tmp/alive" 9223372037) =
      some "the file was not modified in the last 9223372037 seconds" ∧
    (run overflowWorld).exitCode = 1 := by
  refine ⟨by decide, rfl, by decide, by decide, by decide, by decide⟩

/-! ## Status comparison of the URI check -/

/-- C5: `uriHealthCheck` returns an error whenever the GET fails at transport level, and
when the GET returns a response it returns no error exactly when the status code of
the response equals the expected one; status 204 does not satisfy an expected 200,
status 200 does. -/
theorem uriHealthCheck_ok_iff_status_equal (w : World) (uri : String)
    (timeout expectedStatusCode : Int) :
    (∀ err, w.httpGet uri (secondsToDuration timeout) = Except.error err →
      checkResult (uriHealthCheck w uri timeout expectedStatusCode) =
        some ("failed to get URI: " ++ err)) ∧
    (∀ statusCode, w.httpGet uri (secondsToDuration timeout) = Except.ok statusCode →
      (checkResult (uriHealthCheck w uri timeout expectedStatusCode) = none ↔
        statusCode = expectedStatusCode)) ∧
    checkResult (uriHealthCheck (worldWithServer 204) uri timeout 200) ≠ none ∧
    checkResult (uriHealthCheck (worldWithServer 200) uri timeout 200) = none := by
  refine ⟨?_, ?_, ?_, ?_⟩
  · intro err h
    rw [uriHealthCheck_result, h]
  · intro s h
    rw [uriHealthCheck_result, h]
    by_cases hs : s = expectedStatusCode <;> simp [hs]
  · rw [uriHealthCheck_result]
    simp [worldWithServer, serverReturning]
  · rw [uriHealthCheck_result]
    simp [worldWithServer, serverReturning]

/-- Witness of C5: a server answering 404 fails an expected 200, and a refused
connection is reported as an error. -/
theorem uriHealthCheck_ok_iff_status_equal_witness :
    (checkResult (uriHealthCheck (worldWithServer 404) "http://localhost/health" 10 200) = none ↔
      (404 : Int) = 200) ∧
    checkResult (uriHealthCheck missingFileWorld "http://localhost/health" 10 200) =
      some "failed to get URI: connection refused" :=
  ⟨(uriHealthCheck_ok_iff_status_equal (worldWithServer 404) "http://localhost/health" 10 200).2.1
      404 rfl,
   (uriHealthCheck_ok_iff_status_equal missingFileWorld "http://localhost/health" 10 200).1
      "connection refused" rfl⟩

/-! ## Stat failure -/

/-- C6: when the stat of the path fails, `fileHealthCheck` returns the access error
that carries the text of the underlying cause, for every maximal age, and its trace
holds no age comparison; a run of `main` that calls `fileHealthCheck` on that path
makes no age comparison either and exits with code 1. -/
theorem fileHealthCheck_stat_failure (w : World) (path err : String)
    (hstat : w.stat path = Except.error err) :
    (∀ maxAgeSeconds,
      checkResult (fileHealthCheck w path maxAgeSeconds) =
        some ("failed to access the file: " ++ err) ∧
      checkTrace (fileHealthCheck w path maxAgeSeconds) =
        [Event.fileHealthCheckCall path maxAgeSeconds, Event.stat path] ∧
      Event.ageComparison ∉ checkTrace (fileHealthCheck w path maxAgeSeconds)) ∧
    (∀ maxAgeSeconds, Event.fileHealthCheckCall path maxAgeSeconds ∈ (run w).trace →
      (run w).exitCode = 1 ∧ Event.ageComparison ∉ (run w).trace) := by
  constructor
  · intro m
    rw [fileHealthCheck_result, fileHealthCheck_trace, hstat]
    simp
  · intro m hmem
    rcases run_trace_cases w with h | ⟨hu, hf⟩ | ⟨hu, hf⟩
    · rw [run_config_error w h] at hmem
      simp at hmem
    · have hfil := run_uri_mode_filter w Event.isFileCall (fun _ => rfl) hu hf
      have hin : Event.fileHealthCheckCall path m ∈ (run w).trace.filter Event.isFileCall :=
        List.mem_filter.mpr ⟨hmem, rfl⟩
      rw [hfil, uriCheckOf, uriHealthCheck_trace] at hin
      cases hg : w.httpGet (w.getenv "HEALTHCHECK_URI")
        (secondsToDuration ((Atoi (w.getenv "HEALTHCHECK_URI_TIMEOUT")).getD 10)) <;>
        rw [hg] at hin <;> simp [Event.isFileCall] at hin
    · have hfil := run_file_mode_filter w Event.isFileCall (fun _ => rfl) hu hf
      have hin : Event.fileHealthCheckCall path m ∈ (run w).trace.filter Event.isFileCall :=
        List.mem_filter.mpr ⟨hmem, rfl⟩
      rw [hfil, fileCheckOf, fileHealthCheck_trace] at hin
      have hpath : path = w.getenv "HEALTHCHECK_FILE" := by
        cases hg : w.stat (w.getenv "HEALTHCHECK_FILE") <;>
          rw [hg] at hin <;> simp [Event.isFileCall] at hin <;> exact hin.1
      have hstat2 : w.stat (w.getenv "HEALTHCHECK_FILE") = Except.error err := hpath ▸ hstat
      have hrun := run_file_mode w hu hf
      have hres : checkResult (fileCheckOf w) = some ("failed to access the file: " ++ err) := by
        rw [fileCheckOf, fileHealthCheck_result, hstat2]
      have htr : checkTrace (fileCheckOf w) =
          [Event.fileHealthCheckCall (w.getenv "HEALTHCHECK_FILE")
            ((Atoi (w.getenv "HEALTHCHECK_FILE_MAX_AGE")).getD 60),
           Event.stat (w.getenv "HEALTHCHECK_FILE")] := by
        rw [fileCheckOf, fileHealthCheck_trace, hstat2]
      rw [hres, htr] at hrun
      rw [hrun]
      simp [filePreamble, maxAgeLine]
      cases Atoi (w.getenv "HEALTHCHECK_FILE_MAX_AGE") <;> simp

/-- Witness of C6: file mode on a missing path exits 1 without an age comparison. -/
theorem fileHealthCheck_stat_failure_witness :
    missingFileWorld.stat "/tmp/missing" = Except.error "no such file or directory" ∧
    checkResult (fileHealthCheck missingFileWorld "/tmp/missing" 60) =
      some "failed to access the file: no such file or directory" ∧
    (run missingFileWorld).exitCode = 1 ∧
    Event.ageComparison ∉ (run missingFileWorld).trace :=
  have t := fileHealthCheck_stat_failure missingFileWorld "/tmp/missing"
    "no such file or directory" rfl
  ⟨rfl, (t.1 60).1, t.2 60 (by decide)⟩

/-! ## Repeated runs -/

/-- C7, counterexample: two runs on the same environment, the same file modification
time and the same server, the first 30 seconds and the second 120 seconds after the
modification, end with different exit codes. -/
theorem same_state_later_run_differs :
    earlyRunWorld.getenv = lateRunWorld.getenv ∧
    earlyRunWorld.stat = lateRunWorld.stat ∧
    earlyRunWorld.httpGet = lateRunWorld.httpGet ∧
    (run earlyRunWorld).exitCode = 0 ∧
    (run lateRunWorld).exitCode = 1 ∧
    run earlyRunWorld ≠ run lateRunWorld := by
  refine ⟨rfl, rfl, rfl, by decide, by decide, by decide⟩

/-- C7, amended: two runs that read the same five variables, get the same response to
the GET they issue, the same stat result for the path they check, and (when a file is
checked) the same clock reading, have the same exit code and the same trace, failure
message of the check included. -/
theorem run_determined_by_observed_state (w1 w2 : World)
    (henv : ∀ name ∈ ["HEALTHCHECK_URI", "HEALTHCHECK_FILE", "HEALTHCHECK_URI_TIMEOUT",
      "HEALTHCHECK_URI_STATUS_CODE", "HEALTHCHECK_FILE_MAX_AGE"],
      w1.getenv name = w2.getenv name)
    (hhttp : w1.getenv "HEALTHCHECK_URI" ≠ "" →
      w1.httpGet (w1.getenv "HEALTHCHECK_URI")
          (secondsToDuration ((Atoi (w1.getenv "HEALTHCHECK_URI_TIMEOUT")).getD 10)) =
        w2.httpGet (w1.getenv "HEALTHCHECK_URI")
          (secondsToDuration ((Atoi (w1.getenv "HEALTHCHECK_URI_TIMEOUT")).getD 10)))
    (hstat : w1.getenv "HEALTHCHECK_FILE" ≠ "" →
      w1.stat (w1.getenv "HEALTHCHECK_FILE") = w2.stat (w1.getenv "HEALTHCHECK_FILE"))
    (hnow : w1.getenv "HEALTHCHECK_FILE" ≠ "" → w1.now = w2.now) :
    run w1 = run w2 := by
  have eu := henv "HEALTHCHECK_URI" (by simp)
  have ef := henv "HEALTHCHECK_FILE" (by simp)
  have et := henv "HEALTHCHECK_URI_TIMEOUT" (by simp)
  have ec := henv "HEALTHCHECK_URI_STATUS_CODE" (by simp)
  have em := henv "HEALTHCHECK_FILE_MAX_AGE" (by simp)
  rcases run_trace_cases w1 with h | ⟨hu, hf⟩ | ⟨hu, hf⟩
  · rw [run_config_error w1 h, run_config_error w2 (by rw [← eu, ← ef]; exact h)]
  · rw [run_uri_mode w1 hu hf, run_uri_mode w2 (eu ▸ hu) (ef ▸ hf)]
    simp only [uriCheckOf, uriPreamble, uriHealthCheck_result, uriHealthCheck_trace,
      ← eu, ← et, ← ec, ← hhttp hu]
  · rw [run_file_mode w1 hu hf, run_file_mode w2 (eu ▸ hu) (ef ▸ hf)]
    simp only [fileCheckOf, filePreamble, fileHealthCheck_result, fileHealthCheck_trace,
      ← ef, ← em, ← hstat hf, ← hnow hf]

/-- Witness of amended C7: two worlds that differ only in what the run never reads. -/
theorem run_determined_by_observed_state_witness :
    lateRunWorld.now = lateRunOtherServerWorld.now ∧
    lateRunWorld.httpGet ≠ lateRunOtherServerWorld.httpGet ∧
    run lateRunWorld = run lateRunOtherServerWorld :=
  ⟨rfl, fun h => by simpa [lateRunWorld, lateRunOtherServerWorld, noServer, serverReturning]
      using congrFun (congrFun h "") 0,
   run_determined_by_observed_state lateRunWorld lateRunOtherServerWorld
     (by decide) (fun h => absurd rfl h) (fun _ => rfl) (fun _ => rfl)⟩

/-! ## Exactly one check per run -/

/-- C8: a run that passes the selector validation calls exactly one of the two checks,
exactly once: `uriHealthCheck` exactly when `HEALTHCHECK_URI` is non-empty,
`fileHealthCheck` exactly when `HEALTHCHECK_FILE` is non-empty.  URI mode issues one
GET and no stat, file mode one stat and no GET. -/
theorem exactly_one_check_runs_once (w : World)
    (hvalid : ¬ ((w.getenv "HEALTHCHECK_URI" = "" ∧ w.getenv "HEALTHCHECK_FILE" = "") ∨
      (w.getenv "HEALTHCHECK_URI" ≠ "" ∧ w.getenv "HEALTHCHECK_FILE" ≠ ""))) :
    (run w).trace.countP Event.isUriCall + (run w).trace.countP Event.isFileCall = 1 ∧
    ((run w).trace.countP Event.isUriCall = 1 ↔ w.getenv "HEALTHCHECK_URI" ≠ "") ∧
    ((run w).trace.countP Event.isFileCall = 1 ↔ w.getenv "HEALTHCHECK_FILE" ≠ "") ∧
    (w.getenv "HEALTHCHECK_URI" ≠ "" →
      (run w).trace.countP Event.isHttpGet = 1 ∧ (run w).trace.countP Event.isStat = 0) ∧
    (w.getenv "HEALTHCHECK_FILE" ≠ "" →
      (run w).trace.countP Event.isStat = 1 ∧ (run w).trace.countP Event.isHttpGet = 0) := by
  rcases run_trace_cases w with h | ⟨hu, hf⟩ | ⟨hu, hf⟩
  · exact absurd h hvalid
  · simp only [List.countP_eq_length_filter,
      run_uri_mode_filter w Event.isUriCall (fun _ => rfl) hu hf,
      run_uri_mode_filter w Event.isFileCall (fun _ => rfl) hu hf,
      run_uri_mode_filter w Event.isHttpGet (fun _ => rfl) hu hf,
      run_uri_mode_filter w Event.isStat (fun _ => rfl) hu hf, uriCheckOf,
      uriHealthCheck_trace]
    cases w.httpGet _ _ <;>
      simp [Event.isUriCall, Event.isFileCall, Event.isHttpGet, Event.isStat, hu, hf]
  · simp only [List.countP_eq_length_filter,
      run_file_mode_filter w Event.isUriCall (fun _ => rfl) hu hf,
      run_file_mode_filter w Event.isFileCall (fun _ => rfl) hu hf,
      run_file_mode_filter w Event.isHttpGet (fun _ => rfl) hu hf,
      run_file_mode_filter w Event.isStat (fun _ => rfl) hu hf, fileCheckOf,
      fileHealthCheck_trace]
    cases w.stat _ <;>
      simp [Event.isUriCall, Event.isFileCall, Event.isHttpGet, Event.isStat, hu, hf]

/-- Witness of C8: a run in URI mode. -/
theorem exactly_one_check_runs_once_witness :
    ¬ ((uriWorld.getenv "HEALTHCHECK_URI" = "" ∧ uriWorld.getenv "HEALTHCHECK_FILE" = "") ∨
      (uriWorld.getenv "HEALTHCHECK_URI" ≠ "" ∧ uriWorld.getenv "HEALTHCHECK_FILE" ≠ "")) ∧
    (run uriWorld).trace.countP Event.isUriCall + (run uriWorld).trace.countP Event.isFileCall
      = 1 :=
  have h : ¬ ((uriWorld.getenv "HEALTHCHECK_URI" = "" ∧
        uriWorld.getenv "HEALTHCHECK_FILE" = "") ∨
      (uriWorld.getenv "HEALTHCHECK_URI" ≠ "" ∧ uriWorld.getenv "HEALTHCHECK_FILE" ≠ "")) := by
    decide
  ⟨h, (exactly_one_check_runs_once uriWorld h).1⟩

/-! ## Text of the status mismatch error -/

/-- C9: when the response carries a status code different from the expected one, the
error of `uriHealthCheck` is the text `invalid status code: <actual>, expected
<expected>`, which contains the decimal rendering of both codes. -/
theorem uriHealthCheck_mismatch_message (w : World) (uri : String)
    (timeout expectedStatusCode statusCode : Int)
    (hresp : w.httpGet uri (secondsToDuration timeout) = Except.ok statusCode)
    (hne : statusCode ≠ expectedStatusCode) :
    ∃ msg, checkResult (uriHealthCheck w uri timeout expectedStatusCode) = some msg ∧
      msg = "invalid status code: " ++ formatInt statusCode ++ ", expected "
        ++ formatInt expectedStatusCode ∧
      Contains (formatInt statusCode) msg ∧ Contains (formatInt expectedStatusCode) msg := by
  refine ⟨_, ?_, rfl, ?_, ?_⟩
  · rw [uriHealthCheck_result, hresp]
    simp [hne]
  · exact contains_append_right _ (contains_middle _ _ _)
  · exact contains_end _ _

/-- Witness of C9: actual 404 against expected 200. -/
theorem uriHealthCheck_mismatch_message_witness :
    (worldWithServer 404).httpGet "http://localhost/health" (secondsToDuration 10) =
      Except.ok 404 ∧
    (404 : Int) ≠ 200 ∧
    ∃ msg, checkResult (uriHealthCheck (worldWithServer 404) "http://localhost/health" 10 200)
        = some msg ∧
      msg = "invalid status code: 404, expected 200" ∧
      Contains "404" msg ∧ Contains "200" msg :=
  ⟨rfl, by decide,
   uriHealthCheck_mismatch_message (worldWithServer 404) "http://localhost/health" 10 200 404
     rfl (by decide)⟩

/-! ## Text of the staleness error -/

/-- C10: for a file whose stat succeeds, whenever `fileHealthCheck` judges it stale the
error is the text `the file was not modified in the last <maxAgeSeconds> seconds`,
which contains the decimal rendering of the configured threshold; a file modified 120
seconds before the clock reading fails a maximal age of 60 with a message containing
`60`, and a file modified at the instant of the clock reading passes it. -/
theorem fileHealthCheck_stale_message (w : World) (path : String) (modTime : Int)
    (hstat : w.stat path = Except.ok modTime) :
    (∀ maxAgeSeconds, checkResult (fileHealthCheck w path maxAgeSeconds) ≠ none →
      ∃ msg, checkResult (fileHealthCheck w path maxAgeSeconds) = some msg ∧
        msg = "the file was not modified in the last " ++ formatInt maxAgeSeconds
          ++ " seconds" ∧
        Contains (formatInt maxAgeSeconds) msg) ∧
    (w.now = modTime + 120 * second →
      ∃ msg, checkResult (fileHealthCheck w path 60) = some msg ∧ Contains "60" msg) ∧
    (w.now = modTime → checkResult (fileHealthCheck w path 60) = none) := by
  have hmsg : ∀ m : Int, Contains (formatInt m)
      ("the file was not modified in the last " ++ formatInt m ++ " seconds") :=
    fun m => contains_middle _ _ _
  refine ⟨?_, ?_, ?_⟩
  · intro m hne
    rw [fileHealthCheck_result, hstat] at hne ⊢
    by_cases hs : timeSince w.now modTime > secondsToDuration m
    · exact ⟨_, by simp [hs], rfl, hmsg m⟩
    · simp [hs] at hne
  · intro hnow
    refine ⟨_, ?_, hmsg 60⟩
    rw [fileHealthCheck_result, hstat, hnow]
    have h1 : timeSince (modTime + 120 * second) modTime = 120000000000 := by
      simp [timeSince, second, maxInt64, minInt64]
    have h2 : secondsToDuration 60 = 60000000000 := by decide
    simp [h1, h2]
  · intro hnow
    rw [fileHealthCheck_result, hstat, hnow]
    have h1 : timeSince modTime modTime = 0 := by
      simp [timeSince, maxInt64, minInt64]
    have h2 : secondsToDuration 60 = 60000000000 := by decide
    simp [h1, h2]

/-- Witness of C10: a file modified at instant 0, read 120 seconds later, maximal age 60. -/
theorem fileHealthCheck_stale_message_witness :
    (worldWithFile 0 120000000000).stat "/tmp/alive" = Except.ok 0 ∧
    (∃ msg, checkResult (fileHealthCheck (worldWithFile 0 120000000000) "/tmp/alive" 60)
        = some msg ∧
      msg = "the file was not modified in the last 60 seconds" ∧ Contains "60" msg) ∧
    checkResult (fileHealthCheck (worldWithFile 5 5) "/tmp/alive" 60) = none :=
  ⟨rfl,
   (fileHealthCheck_stale_message (worldWithFile 0 120000000000) "/tmp/alive" 0 rfl).1 60
     (by decide),
   (fileHealthCheck_stale_message (worldWithFile 5 5) "/tmp/alive" 5 rfl).2.2 rfl⟩

end Healthcheck
